import Mathlib

/-!
Shallow embedding of the vm-network-migration engine.

The Python sources are translated into pure Lean functions.  Dict fields that
may be absent become Option fields; in-place dict mutation is embedded by
returning the post-call value of the mutated object (for functions that first
deepcopy, the post-call original is returned unchanged alongside the derived
copy); remote calls and checkpoint updates are recorded in explicit event
traces; raised exceptions become Except errors.
-/

namespace VmNetworkMigration

/-- Errors raised by the engine (vm_network_migration.errors). -/
inductive MigError where
  | zoneOperationsError
  | regionOperationsError
  | migrationFailed
  | unableToGenerateNewInstanceTemplate
  | invalidTargetNetworkError
  | missingSubnetworkError
  | subnetworkNotExists
  | unchangedInstanceNameError
  | attributeNotExistError
  | keyOrIndexError
  deriving DecidableEq

/-- One response record returned by a zoneOperations or regionOperations get
poll: its status string, and whether the record carries an error field. -/
structure OpRecord where
  status : String
  hasError : Bool
  deriving DecidableEq

/-- Mirrors wait_for_zone_operation (vm_network_migration.py lines 289-316):
poll until the first record whose status is DONE, then raise
ZoneOperationsError when the record carries an error field, else return the
record.  The argument is the list of successive poll responses; the result is
none when no poll ever reports DONE (the source loops forever in that case). -/
def wait_for_zone_operation : List OpRecord → Option (Except MigError OpRecord)
  | [] => none
  | r :: rest =>
    if r.status = "DONE" then
      if r.hasError then some (Except.error MigError.zoneOperationsError)
      else some (Except.ok r)
    else wait_for_zone_operation rest

/-- Mirrors wait_for_region_operation (vm_network_migration.py lines 319-347):
poll until the first record whose status is DONE.  In the source the raise of
RegionOperationsError is commented out (line 345); when the completed record
carries an error field the function only prints it and returns the record
anyway. -/
def wait_for_region_operation : List OpRecord → Option (Except MigError OpRecord)
  | [] => none
  | r :: rest =>
    if r.status = "DONE" then some (Except.ok r)
    else wait_for_region_operation rest

/-- The networks().get response body as consulted by the resolver: its
selfLink, the autoCreateSubnetworks field (absent for a legacy network), and
the declared subnetwork links. -/
structure NetworkInfo where
  selfLink : String
  autoCreateSubnetworks : Option Bool
  subnetworks : List String
  deriving DecidableEq

/-- State of a SubnetNetwork object (subnet_network.py): the requested network
and optional subnetwork names, the region, the remote network information the
get_network call returns, and the only_check_network_info flag. -/
structure SubnetNetworkState where
  network : String
  subnetwork : Option String
  region : String
  networkInfo : NetworkInfo
  only_check_network_info : Bool
  deriving DecidableEq

/-- Mirrors SubnetNetwork.check_network_auto_mode (subnet_network.py lines
96-110): raise InvalidTargetNetworkError when the autoCreateSubnetworks field
is absent, else return its value. -/
def check_network_auto_mode (s : SubnetNetworkState) : Except MigError Bool :=
  match s.networkInfo.autoCreateSubnetworks with
  | none => Except.error MigError.invalidTargetNetworkError
  | some b => Except.ok b

/-- Mirrors SubnetNetwork.subnetwork_validation (subnet_network.py lines
41-59).  The two leading guarded pass statements in the source have no effect,
so the auto-mode check always runs; then, when no subnetwork was supplied,
fail with MissingSubnetworkError for a custom-mode network and default the
subnetwork name to the network name for an auto-mode network. -/
def subnetwork_validation (s : SubnetNetworkState) : Except MigError SubnetNetworkState :=
  match check_network_auto_mode s with
  | Except.error e => Except.error e
  | Except.ok automode =>
    match s.subnetwork with
    | none =>
      if !automode then Except.error MigError.missingSubnetworkError
      else Except.ok { s with subnetwork := some s.network }
    | some _ => Except.ok s

/-- Modelled from the spec: utils.is_equal_or_contians is not among the
sources (only its callers are).  Per the spec, the no-op check asks whether
the current subnetwork value "already equals the target subnetwork"; the
configured value is a full URL while the target link is its
regions/../subnetworks/.. tail, so the check is equality or containment of
the target link in the configured value. -/
def is_equal_or_contians (original target : String) : Bool :=
  original == target || decide (target.data <:+: original.data)

/-- One accessConfigs entry of a network interface (the engine only ever
touches the first entry, so the list is modelled by its head). -/
structure AccessConfig where
  natIP : Option String
  deriving DecidableEq

/-- A networkInterfaces entry of an instance configuration; absent dict keys
are none. -/
structure NetworkInterface where
  network : Option String
  subnetwork : Option String
  accessConfigs : Option AccessConfig
  networkIP : Option String
  aliasIpRanges : Option (List String)
  deriving DecidableEq

/-- The network and subnetwork links a resolved SubnetNetwork object holds. -/
structure SubnetNetworkLinks where
  network_link : Option String
  subnetwork_link : Option String
  deriving DecidableEq

/-- Instance group configurations, reduced to the fields the engine reads or
writes. -/
structure GroupConfigs where
  name : String
  network : Option String
  subnetwork : Option String
  instanceTemplate : Option String
  deriving DecidableEq

/-- Instance template configurations, reduced to the fields the
managed-group migration consults: the template name and the subnetwork of its
first network interface. -/
structure TemplateConfigs where
  name : String
  interfaceSubnetwork : Option String
  deriving DecidableEq

/-- Mirrors Instance.compare_original_network_and_target_network
(instance.py lines 396-414): raise InvalidTargetNetworkError when the network
object or its subnetwork link is missing; return false when the first
interface of the original configs has no subnetwork key; otherwise compare
with is_equal_or_contians. -/
def Instance.compare_original_network_and_target_network
    (network_object : Option SubnetNetworkLinks)
    (original_first_interface : NetworkInterface) : Except MigError Bool :=
  match network_object with
  | none => Except.error MigError.invalidTargetNetworkError
  | some links =>
    match links.subnetwork_link with
    | none => Except.error MigError.invalidTargetNetworkError
    | some target_link =>
      match original_first_interface.subnetwork with
      | none => Except.ok false
      | some original_sub => Except.ok (is_equal_or_contians original_sub target_link)

/-- Mirrors UnmanagedInstanceGroup.compare_original_network_and_target_network
(unmanaged_instance_group.py lines 216-229): false when the original configs
have no subnetwork key, else the is_equal_or_contians check against the
resolved target subnetwork link. -/
def UnmanagedInstanceGroup.compare_original_network_and_target_network
    (original_instance_group_configs : GroupConfigs)
    (subnetwork_link : String) : Bool :=
  match original_instance_group_configs.subnetwork with
  | none => false
  | some original_sub => is_equal_or_contians original_sub subnetwork_link

/-- Modelled from the spec: InstanceTemplate.compare_original_network_and_target_network
(modules/other_modules/instance_template.py is not among the sources).  Per
the spec the managed-group procedure short-circuits "if its network already
matches target", with the same equals-or-contains check the Instance and
UnmanagedInstanceGroup variants apply to the subnetwork of the first network
interface. -/
def InstanceTemplate.compare_original_network_and_target_network
    (template : TemplateConfigs) (subnetwork_link : String) : Bool :=
  match template.interfaceSubnetwork with
  | none => false
  | some original_sub => is_equal_or_contians original_sub subnetwork_link

/-- Modelled from the spec: InstanceGroup.modify_instance_group_configs_with_instance_template
(modules/instance_group_modules/managed_instance_group.py is not among the
sources).  Per the call site and the spec it points the given group configs at
the new instance template link. -/
def modify_instance_group_configs_with_instance_template
    (configs : GroupConfigs) (instance_template_link : String) : GroupConfigs :=
  { configs with instanceTemplate := some instance_template_link }

/-- Events of the managed-instance-group migration: checkpoint updates and
the remote mutations, in program order. -/
inductive MIGEvent where
  | statusSet (n : Nat)
  | insertTemplate (t : TemplateConfigs)
  | deleteGroup
  | createGroup (c : GroupConfigs)
  | deleteTemplate
  deriving DecidableEq

/-- Whether an event is a mutating remote call (checkpoint updates are
local). -/
def MIGEvent.isRemoteMutation : MIGEvent → Bool
  | MIGEvent.statusSet _ => false
  | _ => true

/-- State a ManagedInstanceGroupMigration handler carries into
network_migration: the flags and remote responses its reads observe, the
original and new group configuration snapshots, and the checkpoint ordinal.
generated_new_template is the result of
generating_new_instance_template_using_network_info (its module is not among
the sources); none reproduces the guarded generation failure. -/
structure ManagedInstanceGroupMigrationState where
  preserve_external_ip : Bool
  target_pool_list : List String
  autoscaler : Option String
  original_instance_template : TemplateConfigs
  target_subnetwork_link : String
  generated_new_template : Option TemplateConfigs
  original_instance_group_configs : GroupConfigs
  new_instance_group_configs : GroupConfigs
  migration_status : Nat
  deriving DecidableEq

/-- Mirrors ManagedInstanceGroupMigration.network_migration
(managed_instance_group_migration.py lines 74-140).  Returns the final
handler state, the trace of checkpoint updates and remote mutations in
program order, and the outcome.  Warnings (preserve_external_ip, autoscaler)
only log.  The new template link recorded in the group configs is the
inserted template name standing for its selfLink. -/
def ManagedInstanceGroupMigration.network_migration
    (s : ManagedInstanceGroupMigrationState) :
    ManagedInstanceGroupMigrationState × List MIGEvent × Except MigError Unit :=
  let s0 := { s with migration_status := 0 }
  let t0 := [MIGEvent.statusSet 0]
  if s0.target_pool_list.length ≠ 0 then
    (s0, t0, Except.error MigError.migrationFailed)
  else
    if InstanceTemplate.compare_original_network_and_target_network
        s0.original_instance_template s0.target_subnetwork_link then
      (s0, t0, Except.ok ())
    else
      let s1 := { s0 with migration_status := 1 }
      let t1 := t0 ++ [MIGEvent.statusSet 1]
      match s1.generated_new_template with
      | none => (s1, t1, Except.error MigError.unableToGenerateNewInstanceTemplate)
      | some newTemplate =>
        let t2 := t1 ++ [MIGEvent.insertTemplate newTemplate, MIGEvent.statusSet 2]
        let s2 := { s1 with
          migration_status := 2,
          new_instance_group_configs :=
            modify_instance_group_configs_with_instance_template
              s1.new_instance_group_configs newTemplate.name }
        let s3 := { s2 with migration_status := 3 }
        let t3 := t2 ++ [MIGEvent.deleteGroup, MIGEvent.statusSet 3]
        let s4 := { s3 with migration_status := 4 }
        let t4 := t3 ++
          [MIGEvent.createGroup s3.new_instance_group_configs, MIGEvent.statusSet 4]
        (s4, t4, Except.ok ())

/-- State ManagedInstanceGroupMigration.rollback consults: the checkpoint
ordinal reached before the failure, whether the group currently exists
remotely (the get_status probe), and the original configuration snapshot. -/
structure MIGRollbackState where
  migration_status : Nat
  group_exists : Bool
  original_instance_group_configs : GroupConfigs
  deriving DecidableEq

/-- Mirrors ManagedInstanceGroupMigration.rollback
(managed_instance_group_migration.py lines 142-164): at checkpoint 3 or above
delete the new group when it exists and fall to checkpoint 3; at checkpoint 3
recreate the original group and fall to 2; at checkpoint 2 delete the new
instance template and fall to 0. -/
def ManagedInstanceGroupMigration.rollback (s : MIGRollbackState) :
    MIGRollbackState × List MIGEvent :=
  let step1 :=
    if 3 ≤ s.migration_status then
      if s.group_exists then
        ({ s with migration_status := 3, group_exists := false }, [MIGEvent.deleteGroup])
      else ({ s with migration_status := 3 }, ([] : List MIGEvent))
    else (s, [])
  let step2 :=
    if step1.1.migration_status = 3 then
      ({ step1.1 with migration_status := 2, group_exists := true },
        step1.2 ++ [MIGEvent.createGroup s.original_instance_group_configs])
    else step1
  if step2.1.migration_status = 2 then
    ({ step2.1 with migration_status := 0 }, step2.2 ++ [MIGEvent.deleteTemplate])
  else step2

/-- Forwarding rule configurations, reduced to the fields the engine reads or
writes. -/
structure ForwardingRuleConfigs where
  name : String
  network : Option String
  subnetwork : Option String
  deriving DecidableEq

/-- Events of the forwarding-rule migrations: handler construction (reads
only), invocations of the child migrations, and the remote mutations on the
rule itself. -/
inductive FREvent where
  | buildTargetPoolHandler (selfLink : Option String)
  | targetPoolMigration (selfLink : Option String)
  | deleteForwardingRule
  | backendServiceMigration
  | insertForwardingRule (c : ForwardingRuleConfigs)
  deriving DecidableEq

/-- State of an ExternalRegionalForwardingRule handle: the selfLink of the
target pool the rule points at, or none when the rule has no target pool. -/
structure ExternalRegionalForwardingRuleState where
  target_pool_selfLink : Option String
  deriving DecidableEq

/-- Mirrors ForwardingRuleMigration.migrate_an_external_regional_forwarding_rule
(forwarding_rule_migration.py lines 76-94).  When the rule has no target pool
the source prints a terminating notice but does NOT return: it falls through,
still builds a target-pool migration handler from the missing selfLink (the
SelfLinkExecutor module is not among the sources) and still invokes
network_migration on it. -/
def migrate_an_external_regional_forwarding_rule
    (s : ExternalRegionalForwardingRuleState) : List FREvent :=
  [FREvent.buildTargetPoolHandler s.target_pool_selfLink,
   FREvent.targetPoolMigration s.target_pool_selfLink]

/-- State of an InternalRegionalForwardingRule handle and the backend service
it points at: the count_forwarding_rules probe of the backend service, and
the captured new configuration of the rule. -/
structure InternalRegionalForwardingRuleState where
  backend_service_selfLink : Option String
  backend_service_forwarding_rule_count : Nat
  new_forwarding_rule_configs : ForwardingRuleConfigs
  deriving DecidableEq

/-- Mirrors ForwardingRuleMigration.migrate_an_internal_regional_forwarding_rule
(forwarding_rule_migration.py lines 96-129), as the trace of child-migration
invocations and remote mutations: when the backend service is referenced by
more than one forwarding rule, return with no mutation; otherwise delete the
rule, migrate the backend service, then recreate the rule from its captured
new configuration.  Building the backend-service handler issues only reads. -/
def migrate_an_internal_regional_forwarding_rule
    (s : InternalRegionalForwardingRuleState) : List FREvent :=
  if 1 < s.backend_service_forwarding_rule_count then
    []
  else
    [FREvent.deleteForwardingRule, FREvent.backendServiceMigration,
     FREvent.insertForwardingRule s.new_forwarding_rule_configs]

/-- Mirrors modify_instance_configs_with_external_ip (instance.py lines
256-285), returning the post-call value of the interface it mutates: with no
external IP the natIP key of the first access config is dropped; with one it
is set, creating the access config when absent; the networkIP key is always
dropped. -/
def modify_instance_configs_with_external_ip (external_ip : Option String)
    (interface : NetworkInterface) : NetworkInterface :=
  let step1 :=
    match external_ip with
    | none =>
      match interface.accessConfigs with
      | none => interface
      | some ac => { interface with accessConfigs := some { ac with natIP := none } }
    | some ip =>
      match interface.accessConfigs with
      | none => { interface with accessConfigs := some { natIP := some ip } }
      | some ac => { interface with accessConfigs := some { ac with natIP := some ip } }
  if step1.networkIP.isSome then { step1 with networkIP := none } else step1

/-- Mirrors modify_instance_configs_with_new_network (instance.py lines
225-254), returning the post-call value of the interface it mutates: the
network and subnetwork fields of the first interface are replaced by the new
links. -/
def modify_instance_configs_with_new_network
    (new_network_link new_subnetwork_link : Option String)
    (interface : NetworkInterface) : NetworkInterface :=
  { interface with network := new_network_link, subnetwork := new_subnetwork_link }

/-- The address object an Instance handle holds (its external IP, when the
original instance has one). -/
structure AddressObject where
  external_ip : Option String
  deriving DecidableEq

/-- Instance configurations, reduced to the name and the first network
interface (the engine only ever touches interface 0). -/
structure InstanceConfigs where
  name : String
  firstNetworkInterface : NetworkInterface
  deriving DecidableEq

/-- Mirrors Instance.get_new_instance_configs (instance.py lines 287-306).
The source copies the original configs with deepcopy and applies the external
IP and network modifications to the copy only, so the result pairs the
post-call original configs (unchanged) with the derived new configs.  Raises
AttributeNotExistError when the address object or network name is missing. -/
def Instance.get_new_instance_configs (preserve_instance_ip : Bool)
    (address_object : Option AddressObject) (network_name : Option String)
    (network_object : SubnetNetworkLinks) (original : InstanceConfigs) :
    Except MigError (InstanceConfigs × InstanceConfigs) :=
  match address_object, network_name with
  | none, _ => Except.error MigError.attributeNotExistError
  | some _, none => Except.error MigError.attributeNotExistError
  | some address, some _ =>
    let external_ip := if preserve_instance_ip then address.external_ip else none
    let interface0 :=
      modify_instance_configs_with_external_ip external_ip original.firstNetworkInterface
    let interface1 :=
      modify_instance_configs_with_new_network network_object.network_link
        network_object.subnetwork_link interface0
    Except.ok (original, { original with firstNetworkInterface := interface1 })

/-- Mirrors UnmanagedInstanceGroup.get_new_instance_group_configs_using_new_network
(unmanaged_instance_group.py lines 201-214).  The source deepcopies the given
configs and sets the network and subnetwork links on the copy, so the result
pairs the post-call original configs (unchanged) with the derived configs. -/
def UnmanagedInstanceGroup.get_new_instance_group_configs_using_new_network
    (network : SubnetNetworkLinks) (instance_group_configs : GroupConfigs) :
    GroupConfigs × GroupConfigs :=
  (instance_group_configs,
   { instance_group_configs with
      network := network.network_link, subnetwork := network.subnetwork_link })

/-- The network and subnetwork links generate_new_network_info produces for
the legacy instance-migration script. -/
structure NetworkInfoLinks where
  network : String
  subnetwork : String
  deriving DecidableEq

/-- Mirrors preserve_ip_addresses_handler (vm_network_migration.py lines
560-634).  The first source line binds new_network_interface to the SAME dict
object as original_network_interface (no copy), so every update below mutates
the original interface of the caller; the returned value is therefore exactly
the post-call state of the original network interface.  The remote
address-insert calls change no interface field, except that a failed
internal-address preservation drops the networkIP key; a failed external
preservation only logs. -/
def preserve_ip_addresses_handler
    (preserve_external_ip preserve_internal_ip preserve_alias_ip_ranges : Bool)
    (new_network_info : NetworkInfoLinks)
    (original_network_interface : NetworkInterface)
    (internal_preserve_op_failed : Bool) : NetworkInterface :=
  let n0 := { original_network_interface with
    network := some new_network_info.network,
    subnetwork := some new_network_info.subnetwork }
  let n1 :=
    if preserve_external_ip then n0
    else if n0.accessConfigs.isSome then { n0 with accessConfigs := none } else n0
  let n2 :=
    if preserve_internal_ip then
      if n1.networkIP.isSome then
        if internal_preserve_op_failed then { n1 with networkIP := none } else n1
      else n1
    else if n1.networkIP.isSome then { n1 with networkIP := none } else n1
  if preserve_alias_ip_ranges then n2
  else if n2.aliasIpRanges.isSome then { n2 with aliasIpRanges := none } else n2

/-- A disks entry of an instance configuration. -/
structure DiskInfo where
  deviceName : String
  deriving DecidableEq

/-- The full instance template main2 retrieves: name and networkInterfaces
may be absent (the source raises AttributeNotExistError through
modify_instance_template_with_new_network when they are), disks may be absent
(get_disks_info_from_instance_template raises then). -/
structure FullInstanceConfigs where
  name : Option String
  networkInterfaces : Option (List NetworkInterface)
  disks : Option (List DiskInfo)
  deriving DecidableEq

/-- The remote responses main2 observes: the networks().get body for the
target network, the region of the zone, the instances().get body for the
original instance, and whether the best-effort internal-address preservation
fails.  Every asynchronous operation is taken to complete without an error
payload (the waiters then return normally). -/
structure Main2Env where
  networkInfo : NetworkInfo
  zoneRegion : String
  instanceTemplate : FullInstanceConfigs
  internal_preserve_op_failed : Bool
  deriving DecidableEq

/-- Remote compute API calls main2 issues, in program order. -/
inductive ComputeCall where
  | getNetwork (network : String)
  | getInstance (vm : String)
  | getZone (zone : String)
  | insertAddress
  | stopInstance (vm : String)
  | detachDisk (vm disk : String)
  | deleteInstance (vm : String)
  | insertInstance (vm : String)
  deriving DecidableEq

/-- Mirrors main2 (vm_network_migration.py lines 661-754), returning the
trace of compute API calls issued and the outcome.  The name-equality guard
runs before any compute call; then the auto-mode check (a networks get), the
template and zone reads, a second networks get for the new network info, the
IP-preservation handler (best-effort address inserts), the local template
modification, and the stop / detach / delete / create sequence, each mutation
confirmed by the zonal waiter before the next begins. -/
def main2 (env : Main2Env) (zone original_instance new_instance network : String)
    (subnetwork : Option String)
    (preserve_external_ip preserve_internal_ip preserve_alias_ip_ranges : Bool) :
    List ComputeCall × Except MigError Unit :=
  if new_instance = original_instance then
    ([], Except.error MigError.unchangedInstanceNameError)
  else
    let calls0 := [ComputeCall.getNetwork network]
    match env.networkInfo.autoCreateSubnetworks with
    | none => (calls0, Except.error MigError.invalidTargetNetworkError)
    | some automode =>
      let resolved_subnetwork :=
        match subnetwork with
        | none => if !automode then none else some network
        | some s => some s
      match resolved_subnetwork with
      | none => (calls0, Except.error MigError.missingSubnetworkError)
      | some subnet =>
        let calls1 := calls0 ++
          [ComputeCall.getInstance original_instance, ComputeCall.getZone zone,
           ComputeCall.getNetwork network]
        let new_network_info : NetworkInfoLinks :=
          { network := env.networkInfo.selfLink,
            subnetwork := env.zoneRegion ++ "/subnetworks/" ++ subnet }
        match env.instanceTemplate.networkInterfaces with
        | none => (calls1, Except.error MigError.keyOrIndexError)
        | some [] => (calls1, Except.error MigError.keyOrIndexError)
        | some (original_interface :: rest_interfaces) =>
          let new_interface := preserve_ip_addresses_handler preserve_external_ip
            preserve_internal_ip preserve_alias_ip_ranges new_network_info
            original_interface env.internal_preserve_op_failed
          let address_calls :=
            (if preserve_external_ip &&
                (original_interface.accessConfigs.bind AccessConfig.natIP).isSome then
              [ComputeCall.insertAddress] else []) ++
            (if preserve_internal_ip && original_interface.networkIP.isSome then
              [ComputeCall.insertAddress] else [])
          match env.instanceTemplate.name with
          | none => (calls1 ++ address_calls, Except.error MigError.attributeNotExistError)
          | some _ =>
            let _new_instance_template : FullInstanceConfigs :=
              { env.instanceTemplate with
                name := some new_instance,
                networkInterfaces := some (new_interface :: rest_interfaces) }
            let calls2 := calls1 ++ address_calls ++
              [ComputeCall.stopInstance original_instance]
            match env.instanceTemplate.disks with
            | none => (calls2, Except.error MigError.attributeNotExistError)
            | some disks =>
              (calls2 ++
                disks.map (fun d => ComputeCall.detachDisk original_instance d.deviceName) ++
                [ComputeCall.deleteInstance original_instance,
                 ComputeCall.insertInstance new_instance],
               Except.ok ())

/-- Concrete network information without the auto-mode indicator. -/
def netInfoNoIndicator : NetworkInfo :=
  { selfLink := "projects/p/global/networks/target-network",
    autoCreateSubnetworks := none, subnetworks := [] }

/-- Concrete custom-mode network information. -/
def netInfoCustom : NetworkInfo :=
  { selfLink := "projects/p/global/networks/target-network",
    autoCreateSubnetworks := some false,
    subnetworks := ["projects/p/regions/r1/subnetworks/target-sub"] }

/-- Concrete auto-mode network information. -/
def netInfoAuto : NetworkInfo :=
  { selfLink := "projects/p/global/networks/target-network",
    autoCreateSubnetworks := some true,
    subnetworks := ["projects/p/regions/r1/subnetworks/target-network"] }

/-- Resolution state for a network lacking the auto-mode indicator. -/
def subnetStateNoIndicator : SubnetNetworkState :=
  { network := "target-network", subnetwork := none, region := "r1",
    networkInfo := netInfoNoIndicator, only_check_network_info := false }

/-- Resolution state for a custom-mode network with no subnetwork supplied. -/
def subnetStateCustomNoSubnet : SubnetNetworkState :=
  { network := "target-network", subnetwork := none, region := "r1",
    networkInfo := netInfoCustom, only_check_network_info := false }

/-- Resolution state for an auto-mode network with no subnetwork supplied. -/
def subnetStateAutoNoSubnet : SubnetNetworkState :=
  { network := "target-network", subnetwork := none, region := "r1",
    networkInfo := netInfoAuto, only_check_network_info := false }

/-- Concrete group configuration snapshot. -/
def sampleGroupConfigs : GroupConfigs :=
  { name := "group-1", network := some "projects/p/global/networks/legacy",
    subnetwork := some "regions/r1/subnetworks/legacy-sub",
    instanceTemplate := some "tmpl-old" }

/-- Concrete instance template already on the target subnetwork. -/
def templateOnTarget : TemplateConfigs :=
  { name := "tmpl-old",
    interfaceSubnetwork := some "regions/r1/subnetworks/target-sub" }

/-- Concrete instance template still on the legacy subnetwork. -/
def templateOnLegacy : TemplateConfigs :=
  { name := "tmpl-old",
    interfaceSubnetwork := some "regions/r1/subnetworks/legacy-sub" }

/-- Concrete freshly generated instance template for the target subnetwork. -/
def templateGenerated : TemplateConfigs :=
  { name := "tmpl-new",
    interfaceSubnetwork := some "regions/r1/subnetworks/target-sub" }

/-- Managed-group migration state whose template already matches the target. -/
def migNoopState : ManagedInstanceGroupMigrationState :=
  { preserve_external_ip := false, target_pool_list := [], autoscaler := none,
    original_instance_template := templateOnTarget,
    target_subnetwork_link := "regions/r1/subnetworks/target-sub",
    generated_new_template := some templateGenerated,
    original_instance_group_configs := sampleGroupConfigs,
    new_instance_group_configs := sampleGroupConfigs, migration_status := 0 }

/-- Managed-group migration state still serving a target pool. -/
def migGuardState : ManagedInstanceGroupMigrationState :=
  { migNoopState with target_pool_list := ["projects/p/regions/r1/targetPools/tp-1"] }

/-- Managed-group migration state for a full successful run. -/
def migRunState : ManagedInstanceGroupMigrationState :=
  { migNoopState with original_instance_template := templateOnLegacy }

/-- Rollback state after a failure at checkpoint 4 with the new group
existing. -/
def migRollbackState : MIGRollbackState :=
  { migration_status := 4, group_exists := true,
    original_instance_group_configs := sampleGroupConfigs }

/-- Concrete captured new forwarding rule configuration. -/
def sampleNewFRConfigs : ForwardingRuleConfigs :=
  { name := "fr-1", network := some "projects/p/global/networks/target-network",
    subnetwork := some "regions/r1/subnetworks/target-sub" }

/-- Internal regional forwarding rule whose backend service is referenced by
two forwarding rules. -/
def frSharedBackend : InternalRegionalForwardingRuleState :=
  { backend_service_selfLink := some "projects/p/regions/r1/backendServices/bs-1",
    backend_service_forwarding_rule_count := 2,
    new_forwarding_rule_configs := sampleNewFRConfigs }

/-- Internal regional forwarding rule whose backend service is referenced by
this rule alone. -/
def frSoleBackend : InternalRegionalForwardingRuleState :=
  { frSharedBackend with backend_service_forwarding_rule_count := 1 }

/-- Concrete original network interface, as retrieved. -/
def c8OriginalInterface : NetworkInterface :=
  { network := some "projects/p/global/networks/legacy",
    subnetwork := some "regions/r1/subnetworks/legacy-sub",
    accessConfigs := some { natIP := some "35.0.0.1" },
    networkIP := some "10.0.0.2", aliasIpRanges := none }

/-- Concrete target links for the legacy IP-preservation handler. -/
def c8TargetLinks : NetworkInfoLinks :=
  { network := "projects/p/global/networks/target-network",
    subnetwork := "regions/r1/subnetworks/target-sub" }

/-- Concrete resolved target links for the Instance derivation. -/
def c8SubnetLinks : SubnetNetworkLinks :=
  { network_link := some "projects/p/global/networks/target-network",
    subnetwork_link := some "regions/r1/subnetworks/target-sub" }

/-- Concrete original instance configuration snapshot. -/
def c8OriginalConfigs : InstanceConfigs :=
  { name := "vm-1", firstNetworkInterface := c8OriginalInterface }

/-- The pair Instance.get_new_instance_configs derives from
c8OriginalConfigs without IP preservation: the unchanged original and the
new configs on the target links with the external and internal IPs dropped. -/
def c8DerivedPair : InstanceConfigs × InstanceConfigs :=
  (c8OriginalConfigs,
   { name := "vm-1",
     firstNetworkInterface :=
       { network := some "projects/p/global/networks/target-network",
         subnetwork := some "regions/r1/subnetworks/target-sub",
         accessConfigs := some { natIP := none },
         networkIP := none, aliasIpRanges := none } })

/-- Concrete environment for main2. -/
def main2SampleEnv : Main2Env :=
  { networkInfo := netInfoAuto, zoneRegion := "regions/r1",
    instanceTemplate :=
      { name := some "vm-1", networkInterfaces := some [c8OriginalInterface],
        disks := some [{ deviceName := "disk-1" }] },
    internal_preserve_op_failed := false }

/-- Helper: whatever the preserve flags and the outcome of the best-effort
address operations, the IP-preservation handler always leaves the network
field at the new network link. -/
theorem preserve_ip_addresses_handler_network (pe pi pa : Bool)
    (info : NetworkInfoLinks) (ni : NetworkInterface) (f : Bool) :
    (preserve_ip_addresses_handler pe pi pa info ni f).network = some info.network := by
  simp only [preserve_ip_addresses_handler]
  split_ifs <;> rfl

/-- C1: the operation waiter polls until the remote status is DONE and must
then raise the scope-specific operations error exactly when the completed
record carries an error payload.  The zonal waiter does; the regional waiter
does not: its raise statement is commented out in the source, so on a
completed regional operation that carries an error payload it prints and
returns the record normally, contradicting its own docstring.  Both waiters
are evaluated at that failing input. -/
theorem region_waiter_returns_errored_record :
    wait_for_zone_operation [{ status := "DONE", hasError := true }] =
      some (Except.error MigError.zoneOperationsError) ∧
    wait_for_region_operation [{ status := "DONE", hasError := true }] =
      some (Except.ok { status := "DONE", hasError := true }) := by
  exact ⟨rfl, rfl⟩

/-- C2: when the current configuration already uses the target subnetwork,
migration is a no-op: the managed-group migration issues no mutating remote
call, leaves the original snapshots unchanged, keeps the checkpoint ordinal
at 0 and, absent the target-pool guard, returns normally with only the
initial checkpoint reset in its trace; moreover the
equality-or-containment gates of the Instance and UnmanagedInstanceGroup
handles answer true whenever the original subnetwork equals the resolved
target link. -/
theorem migrate_noop_when_network_matches (s : ManagedInstanceGroupMigrationState)
    (h : InstanceTemplate.compare_original_network_and_target_network
      s.original_instance_template s.target_subnetwork_link = true) :
    (ManagedInstanceGroupMigration.network_migration s).2.1.filter
        MIGEvent.isRemoteMutation = [] ∧
    (ManagedInstanceGroupMigration.network_migration s).1.original_instance_group_configs
      = s.original_instance_group_configs ∧
    (ManagedInstanceGroupMigration.network_migration s).1.original_instance_template
      = s.original_instance_template ∧
    (ManagedInstanceGroupMigration.network_migration s).1.migration_status = 0 ∧
    (s.target_pool_list = [] →
      ManagedInstanceGroupMigration.network_migration s =
        ({ s with migration_status := 0 }, [MIGEvent.statusSet 0], Except.ok ())) ∧
    (∀ (links : SubnetNetworkLinks) (ni : NetworkInterface) (t : String),
      links.subnetwork_link = some t → ni.subnetwork = some t →
      Instance.compare_original_network_and_target_network (some links) ni =
        Except.ok true) ∧
    (∀ (g : GroupConfigs) (t : String), g.subnetwork = some t →
      UnmanagedInstanceGroup.compare_original_network_and_target_network g t = true) := by
  refine ⟨?_, ?_, ?_, ?_, ?_, ?_, ?_⟩
  · unfold ManagedInstanceGroupMigration.network_migration
    by_cases hp : s.target_pool_list.length ≠ 0 <;>
      simp [hp, h, MIGEvent.isRemoteMutation]
  · unfold ManagedInstanceGroupMigration.network_migration
    by_cases hp : s.target_pool_list.length ≠ 0 <;> simp [hp, h]
  · unfold ManagedInstanceGroupMigration.network_migration
    by_cases hp : s.target_pool_list.length ≠ 0 <;> simp [hp, h]
  · unfold ManagedInstanceGroupMigration.network_migration
    by_cases hp : s.target_pool_list.length ≠ 0 <;> simp [hp, h]
  · intro hp
    unfold ManagedInstanceGroupMigration.network_migration
    simp [hp, h]
  · intro links ni t h1 h2
    simp [Instance.compare_original_network_and_target_network, h1, h2,
      is_equal_or_contians]
  · intro g t h1
    simp [UnmanagedInstanceGroup.compare_original_network_and_target_network, h1,
      is_equal_or_contians]

/-- C2 witness: on a concrete managed group whose template already uses the
target subnetwork, migration returns with only the checkpoint reset. -/
theorem migrate_noop_when_network_matches_witness :
    ManagedInstanceGroupMigration.network_migration migNoopState =
      ({ migNoopState with migration_status := 0 },
        [MIGEvent.statusSet 0], Except.ok ()) :=
  (migrate_noop_when_network_matches migNoopState (by decide)).2.2.2.2.1 rfl

/-- C3: a managed instance group still serving a target pool fails with
MigrationFailed before any mutating remote call, with the checkpoint ordinal
still at 0. -/
theorem migration_fails_fast_when_serving_target_pools
    (s : ManagedInstanceGroupMigrationState) (h : s.target_pool_list ≠ []) :
    (ManagedInstanceGroupMigration.network_migration s).2.2 =
      Except.error MigError.migrationFailed ∧
    (ManagedInstanceGroupMigration.network_migration s).2.1.filter
      MIGEvent.isRemoteMutation = [] ∧
    (ManagedInstanceGroupMigration.network_migration s).1.migration_status = 0 := by
  have hl : s.target_pool_list.length ≠ 0 := by simpa using h
  unfold ManagedInstanceGroupMigration.network_migration
  simp [hl, MIGEvent.isRemoteMutation]

/-- C3 witness: concrete managed group serving one target pool. -/
theorem migration_fails_fast_when_serving_target_pools_witness :
    (ManagedInstanceGroupMigration.network_migration migGuardState).2.2 =
      Except.error MigError.migrationFailed ∧
    (ManagedInstanceGroupMigration.network_migration migGuardState).2.1.filter
      MIGEvent.isRemoteMutation = [] ∧
    (ManagedInstanceGroupMigration.network_migration migGuardState).1.migration_status
      = 0 :=
  migration_fails_fast_when_serving_target_pools migGuardState (by decide)

/-- C4: an internal regional forwarding rule whose single backend service is
referenced by two or more forwarding rules returns early with no mutation at
all; otherwise the procedure is exactly delete the rule, migrate the backend
service, recreate the rule from its captured new configuration, in that
order. -/
theorem internal_forwarding_rule_migration_guard
    (s : InternalRegionalForwardingRuleState) :
    (1 < s.backend_service_forwarding_rule_count →
      migrate_an_internal_regional_forwarding_rule s = []) ∧
    (s.backend_service_forwarding_rule_count ≤ 1 →
      migrate_an_internal_regional_forwarding_rule s =
        [FREvent.deleteForwardingRule, FREvent.backendServiceMigration,
         FREvent.insertForwardingRule s.new_forwarding_rule_configs]) := by
  unfold migrate_an_internal_regional_forwarding_rule
  constructor
  · intro h
    simp [h]
  · intro h
    have hn : ¬ 1 < s.backend_service_forwarding_rule_count := by omega
    simp [hn]

/-- C4 witness: concrete shared-backend and sole-backend rules. -/
theorem internal_forwarding_rule_migration_guard_witness :
    migrate_an_internal_regional_forwarding_rule frSharedBackend = [] ∧
    migrate_an_internal_regional_forwarding_rule frSoleBackend =
      [FREvent.deleteForwardingRule, FREvent.backendServiceMigration,
       FREvent.insertForwardingRule frSoleBackend.new_forwarding_rule_configs] :=
  ⟨(internal_forwarding_rule_migration_guard frSharedBackend).1 (by decide),
   (internal_forwarding_rule_migration_guard frSoleBackend).2 (by decide)⟩

/-- C5: rollback of a managed instance group performs exactly the inverses of
the completed forward steps in reverse order: from checkpoint 3 or above it
deletes the new group when it exists, recreates the original group from the
original snapshot and deletes the new template, ending at ordinal 0; from
checkpoint 2 it only deletes the new template, ending at ordinal 0; from
checkpoint 1 or 0 it performs no remote mutation at all. -/
theorem rollback_walks_checkpoints_backward (s : MIGRollbackState) :
    (3 ≤ s.migration_status →
      (ManagedInstanceGroupMigration.rollback s).2 =
        (if s.group_exists then [MIGEvent.deleteGroup] else []) ++
          [MIGEvent.createGroup s.original_instance_group_configs,
           MIGEvent.deleteTemplate] ∧
      (ManagedInstanceGroupMigration.rollback s).1.migration_status = 0) ∧
    (s.migration_status = 2 →
      (ManagedInstanceGroupMigration.rollback s).2 = [MIGEvent.deleteTemplate] ∧
      (ManagedInstanceGroupMigration.rollback s).1.migration_status = 0) ∧
    (s.migration_status ≤ 1 →
      (ManagedInstanceGroupMigration.rollback s).2 = []) := by
  unfold ManagedInstanceGroupMigration.rollback
  refine ⟨fun h => ?_, fun h => ?_, fun h => ?_⟩
  · by_cases hg : s.group_exists <;> simp [h, hg]
  · have h3 : ¬ 3 ≤ s.migration_status := by omega
    simp [h, h3]
  · have h3 : ¬ 3 ≤ s.migration_status := by omega
    have h2 : s.migration_status ≠ 3 := by omega
    have h1 : s.migration_status ≠ 2 := by omega
    simp [h3, h2, h1]

/-- C5 witness: concrete rollback from checkpoint 4 with the new group
existing. -/
theorem rollback_walks_checkpoints_backward_witness :
    (ManagedInstanceGroupMigration.rollback migRollbackState).2 =
      (if migRollbackState.group_exists then [MIGEvent.deleteGroup] else []) ++
        [MIGEvent.createGroup migRollbackState.original_instance_group_configs,
         MIGEvent.deleteTemplate] ∧
    (ManagedInstanceGroupMigration.rollback migRollbackState).1.migration_status = 0 :=
  (rollback_walks_checkpoints_backward migRollbackState).1 (by decide)

/-- C6: on a successful non-no-op managed-group run the checkpoint ordinal
advances strictly forward through 0, 1, 2, 3, 4, none skipped or repeated:
the full trace interleaves the checkpoint updates with the confirmed remote
mutations so that ordinal 2 is set right after the template insert, 3 right
after the group delete and 4 right after the group create, and the final
ordinal is 4. -/
theorem migration_status_strictly_forward (s : ManagedInstanceGroupMigrationState)
    (t : TemplateConfigs) (h1 : s.target_pool_list = [])
    (h2 : InstanceTemplate.compare_original_network_and_target_network
      s.original_instance_template s.target_subnetwork_link = false)
    (h3 : s.generated_new_template = some t) :
    (ManagedInstanceGroupMigration.network_migration s).2.1 =
      [MIGEvent.statusSet 0, MIGEvent.statusSet 1,
       MIGEvent.insertTemplate t, MIGEvent.statusSet 2,
       MIGEvent.deleteGroup, MIGEvent.statusSet 3,
       MIGEvent.createGroup (modify_instance_group_configs_with_instance_template
         s.new_instance_group_configs t.name), MIGEvent.statusSet 4] ∧
    (ManagedInstanceGroupMigration.network_migration s).1.migration_status = 4 ∧
    (ManagedInstanceGroupMigration.network_migration s).2.2 = Except.ok () := by
  unfold ManagedInstanceGroupMigration.network_migration
  simp [h1, h2, h3]

/-- C6 witness: concrete full successful run. -/
theorem migration_status_strictly_forward_witness :
    (ManagedInstanceGroupMigration.network_migration migRunState).2.1 =
      [MIGEvent.statusSet 0, MIGEvent.statusSet 1,
       MIGEvent.insertTemplate templateGenerated, MIGEvent.statusSet 2,
       MIGEvent.deleteGroup, MIGEvent.statusSet 3,
       MIGEvent.createGroup (modify_instance_group_configs_with_instance_template
         migRunState.new_instance_group_configs templateGenerated.name),
       MIGEvent.statusSet 4] ∧
    (ManagedInstanceGroupMigration.network_migration migRunState).1.migration_status
      = 4 ∧
    (ManagedInstanceGroupMigration.network_migration migRunState).2.2 =
      Except.ok () :=
  migration_status_strictly_forward migRunState templateGenerated rfl (by decide) rfl

/-- C7: with no subnetwork supplied, resolution fails with MissingSubnetwork
for a custom-mode network and defaults the subnetwork name to the network
name for an auto-mode network; a network whose configuration lacks the
auto-mode indicator entirely fails with InvalidTargetNetwork whatever the
supplied subnetwork. -/
theorem subnetwork_validation_resolution (s : SubnetNetworkState) :
    (s.networkInfo.autoCreateSubnetworks = none →
      subnetwork_validation s = Except.error MigError.invalidTargetNetworkError) ∧
    (s.subnetwork = none → s.networkInfo.autoCreateSubnetworks = some false →
      subnetwork_validation s = Except.error MigError.missingSubnetworkError) ∧
    (s.subnetwork = none → s.networkInfo.autoCreateSubnetworks = some true →
      subnetwork_validation s = Except.ok { s with subnetwork := some s.network }) := by
  refine ⟨fun h1 => ?_, fun h1 h2 => ?_, fun h1 h2 => ?_⟩
  · simp [subnetwork_validation, check_network_auto_mode, h1]
  · simp [subnetwork_validation, check_network_auto_mode, h1, h2]
  · simp [subnetwork_validation, check_network_auto_mode, h1, h2]

/-- C7 witness: the three concrete resolution outcomes. -/
theorem subnetwork_validation_resolution_witness :
    subnetwork_validation subnetStateNoIndicator =
      Except.error MigError.invalidTargetNetworkError ∧
    subnetwork_validation subnetStateCustomNoSubnet =
      Except.error MigError.missingSubnetworkError ∧
    subnetwork_validation subnetStateAutoNoSubnet =
      Except.ok { subnetStateAutoNoSubnet with
        subnetwork := some subnetStateAutoNoSubnet.network } :=
  ⟨(subnetwork_validation_resolution subnetStateNoIndicator).1 rfl,
   (subnetwork_validation_resolution subnetStateCustomNoSubnet).2.1 rfl rfl,
   (subnetwork_validation_resolution subnetStateAutoNoSubnet).2.2 rfl rfl⟩

/-- C8 counterexample: the legacy IP-preservation path binds the new
interface to the same object as the original one, so the original network
interface is mutated in place: its post-call state (the handler result)
differs from the captured snapshot at this concrete input. -/
theorem original_interface_mutated_by_preserve_ip_handler :
    preserve_ip_addresses_handler false false false c8TargetLinks
      c8OriginalInterface false ≠ c8OriginalInterface := by decide

/-- C8 amended: the Instance and UnmanagedInstanceGroup derivations operate
on a deepcopy and leave the original snapshot unchanged, but the legacy
instance-migration IP-preservation path mutates the original network
interface in place: whenever the target network link differs from the
original one, the post-call original interface differs from the captured
snapshot. -/
theorem original_snapshot_unchanged_only_on_copying_paths :
    (∀ (p : Bool) (a : Option AddressObject) (n : Option String)
        (links : SubnetNetworkLinks) (orig : InstanceConfigs)
        (r : InstanceConfigs × InstanceConfigs),
      Instance.get_new_instance_configs p a n links orig = Except.ok r → r.1 = orig) ∧
    (∀ (links : SubnetNetworkLinks) (g : GroupConfigs),
      (UnmanagedInstanceGroup.get_new_instance_group_configs_using_new_network
        links g).1 = g) ∧
    (∀ (pe pi pa : Bool) (info : NetworkInfoLinks) (ni : NetworkInterface) (f : Bool),
      ni.network ≠ some info.network →
      preserve_ip_addresses_handler pe pi pa info ni f ≠ ni) := by
  refine ⟨?_, ?_, ?_⟩
  · intro p a n links orig r hr
    cases a <;> cases n <;> simp [Instance.get_new_instance_configs] at hr
    rw [← hr]
  · intro links g
    rfl
  · intro pe pi pa info ni f h heq
    apply h
    rw [← heq]
    exact preserve_ip_addresses_handler_network pe pi pa info ni f

/-- C8 witness: on concrete inputs, the Instance derivation preserves the
original snapshot while the IP-preservation handler does not. -/
theorem original_snapshot_unchanged_only_on_copying_paths_witness :
    c8DerivedPair.1 = c8OriginalConfigs ∧
    preserve_ip_addresses_handler false false false c8TargetLinks
      c8OriginalInterface false ≠ c8OriginalInterface :=
  ⟨original_snapshot_unchanged_only_on_copying_paths.1 false
      (some { external_ip := some "35.0.0.1" }) (some "target-network")
      c8SubnetLinks c8OriginalConfigs c8DerivedPair rfl,
   original_snapshot_unchanged_only_on_copying_paths.2.2 false false false
      c8TargetLinks c8OriginalInterface false (by decide)⟩

/-- C9: claimed no-op for an external regional forwarding rule without a
target pool.  The source prints the terminating notice but lacks a return, so
it falls through, still builds the target-pool migration handler from the
missing selfLink and still invokes network_migration on it: the trace at the
failing input is not the empty no-op trace. -/
theorem external_rule_without_target_pool_still_migrates :
    migrate_an_external_regional_forwarding_rule { target_pool_selfLink := none } =
      [FREvent.buildTargetPoolHandler none, FREvent.targetPoolMigration none] := rfl

/-- C10: when the requested new instance name equals the original one, main2
raises UnchangedInstanceNameError before issuing any compute API call. -/
theorem main2_rejects_unchanged_instance_name (env : Main2Env)
    (zone original_instance new_instance network : String)
    (subnetwork : Option String) (pe pi pa : Bool)
    (h : new_instance = original_instance) :
    main2 env zone original_instance new_instance network subnetwork pe pi pa =
      ([], Except.error MigError.unchangedInstanceNameError) := by
  unfold main2
  simp [h]

/-- C10 witness: concrete invocation with identical names. -/
theorem main2_rejects_unchanged_instance_name_witness :
    main2 main2SampleEnv "us-central1-a" "vm-1" "vm-1" "target-network" none
      false false false = ([], Except.error MigError.unchangedInstanceNameError) :=
  main2_rejects_unchanged_instance_name main2SampleEnv "us-central1-a" "vm-1"
    "vm-1" "target-network" none false false false rfl

end VmNetworkMigration
